import Mathlib

/-!
Shallow embedding of the IOT-Motion-logging-system core:
  - `src/MainController/EEPROMStorage.h` — persistent ring queue in EEPROM
  - `src/MainController/ESP01Driver.h`  — AT-command modem state machine
  - `src/MainController/Status.h`       — shared status record (fields inlined
    into the driver state below, as the driver is their sole writer here)

EEPROM is modelled as a byte-addressed memory (`Nat → Nat`, each cell a byte)
together with a counter of physical byte-writes; `EEPROM.update` writes only
when the new byte differs from the stored byte, exactly as the Arduino
`EEPROM.update` the source uses.  `uint8_t` storage is modelled with
explicit `% 256`, while the index sums `head + count` and `head + 1` follow
the C++ integer promotion to `int` (no 8-bit wrap before the `% 10`);
`uint32_t` values are `Nat` with byte extraction `% 256` after shifts, as in
the source.
-/

/-- EEPROM: byte-addressed memory plus a count of physical byte-writes. -/
structure Eeprom where
  mem : Nat → Nat
  writes : Nat

/-- `EEPROM.read(addr)` — returns the stored byte. -/
def eread (e : Eeprom) (a : Nat) : Nat := e.mem a % 256

/-- `EEPROM.update(addr, val)` — writes the byte only if it differs from the
stored byte (write-minimizing semantics of the Arduino EEPROM library). -/
def eupdate (e : Eeprom) (a v : Nat) : Eeprom :=
  if eread e a = v % 256 then e
  else { mem := fun x => if x = a then v % 256 else e.mem x, writes := e.writes + 1 }

namespace EEPROMStorage

/-- `EEPROMStorage::MAX_ENTRIES` -/
def MAX_ENTRIES : Nat := 10

/-- `EEPROMStorage::ADDR_READINGS` -/
def ADDR_READINGS : Nat := 16

/-- `EEPROMStorage::READING_BYTES` -/
def READING_BYTES : Nat := 8

/-- `EEPROMStorage::Reading` — `uint32_t duration_ms; uint32_t ts;` -/
structure Reading where
  duration_ms : Nat
  ts : Nat
deriving DecidableEq

/-- In-RAM queue state (`count`, `head`, both `uint8_t`) together with the
EEPROM contents the methods read and write. -/
structure Storage where
  count : Nat
  head : Nat
  eeprom : Eeprom

/-- `EEPROMStorage::begin()` — load the header bytes; self-heal when the
count byte is out of range. -/
def begin (e : Eeprom) : Storage :=
  let c := eread e 0
  let h := eread e 1
  if c > MAX_ENTRIES then { count := 0, head := 0, eeprom := e }
  else { count := c, head := h, eeprom := e }

/-- `EEPROMStorage::isFull()` -/
def isFull (s : Storage) : Bool := decide (MAX_ENTRIES ≤ s.count)

/-- `EEPROMStorage::isEmpty()` -/
def isEmpty (s : Storage) : Bool := decide (s.count = 0)

/-- `EEPROMStorage::hasPending()` -/
def hasPending (s : Storage) : Bool := ! isEmpty s

/-- `EEPROMStorage::size()` -/
def size (s : Storage) : Nat := s.count

/-- `EEPROMStorage::writeReadingToEEPROM` — 8 change-detecting byte writes,
duration little-endian first, then timestamp little-endian. -/
def writeReadingToEEPROM (e : Eeprom) (index : Nat) (r : Reading) : Eeprom :=
  eupdate (eupdate (eupdate (eupdate (eupdate (eupdate (eupdate (eupdate e
    (ADDR_READINGS + index * READING_BYTES + 0) ((r.duration_ms >>> 0) % 256))
    (ADDR_READINGS + index * READING_BYTES + 1) ((r.duration_ms >>> 8) % 256))
    (ADDR_READINGS + index * READING_BYTES + 2) ((r.duration_ms >>> 16) % 256))
    (ADDR_READINGS + index * READING_BYTES + 3) ((r.duration_ms >>> 24) % 256))
    (ADDR_READINGS + index * READING_BYTES + 4) ((r.ts >>> 0) % 256))
    (ADDR_READINGS + index * READING_BYTES + 5) ((r.ts >>> 8) % 256))
    (ADDR_READINGS + index * READING_BYTES + 6) ((r.ts >>> 16) % 256))
    (ADDR_READINGS + index * READING_BYTES + 7) ((r.ts >>> 24) % 256)

/-- `EEPROMStorage::readReadingFromEEPROM` — little-endian reassembly of the
8 bytes of the slot at `index`. -/
def readReadingFromEEPROM (e : Eeprom) (index : Nat) : Reading :=
  { duration_ms :=
      eread e (ADDR_READINGS + index * READING_BYTES + 0) |||
      (eread e (ADDR_READINGS + index * READING_BYTES + 1)) <<< 8 |||
      (eread e (ADDR_READINGS + index * READING_BYTES + 2)) <<< 16 |||
      (eread e (ADDR_READINGS + index * READING_BYTES + 3)) <<< 24,
    ts :=
      eread e (ADDR_READINGS + index * READING_BYTES + 4) |||
      (eread e (ADDR_READINGS + index * READING_BYTES + 5)) <<< 8 |||
      (eread e (ADDR_READINGS + index * READING_BYTES + 6)) <<< 16 |||
      (eread e (ADDR_READINGS + index * READING_BYTES + 7)) <<< 24 }

/-- `EEPROMStorage::push` — write the entry at the tail slot, increment
`count` (uint8), persist the count header byte; `head` untouched.  The tail
index `(head + count) % MAX_ENTRIES` is computed in int-promoted C++
arithmetic (head and count promoted to int before the addition, so no 8-bit
wrap); the stored `count` is a `uint8_t`, hence the `% 256` on it. -/
def push (s : Storage) (r : Reading) : Bool × Storage :=
  if isFull s then (false, s)
  else
    let tailIndex := (s.head + s.count) % MAX_ENTRIES
    let e1 := writeReadingToEEPROM s.eeprom tailIndex r
    let c1 := (s.count + 1) % 256
    let e2 := eupdate e1 0 c1
    (true, { count := c1, head := s.head, eeprom := e2 })

/-- `EEPROMStorage::peekOldest` — read the slot at `head` without mutation. -/
def peekOldest (s : Storage) : Option Reading :=
  if isEmpty s then none else some (readReadingFromEEPROM s.eeprom s.head)

/-- `EEPROMStorage::popOldest` — advance `head` by `(head + 1) %
MAX_ENTRIES` (int-promoted C++ arithmetic, no 8-bit wrap on the sum),
decrement `count`, persist both header bytes (head then count). -/
def popOldest (s : Storage) : Bool × Storage :=
  if isEmpty s then (false, s)
  else
    let h1 := (s.head + 1) % MAX_ENTRIES
    let c1 := if s.count ≠ 0 then s.count - 1 else s.count
    let e1 := eupdate s.eeprom 1 h1
    let e2 := eupdate e1 0 c1
    (true, { count := c1, head := h1, eeprom := e2 })

/-- An enqueue/dequeue operation, for stating properties over sequences. -/
inductive Op where
  | push (r : Reading)
  | pop

/-- Apply one operation to the queue state (result value discarded). -/
def applyOp (s : Storage) : Op → Storage
  | .push r => (push s r).2
  | .pop => (popOldest s).2

/-- Apply a sequence of operations left to right. -/
def applyOps (s : Storage) : List Op → Storage
  | [] => s
  | o :: rest => applyOps (applyOp s o) rest

end EEPROMStorage

namespace ESP01Driver

open EEPROMStorage

/-- `Status::ESPState` -/
inductive ESPState where
  | OFF
  | BOOTING
  | READY
  | SENDING
  | ERROR
deriving DecidableEq

/-- `pat.isPrefixOf s` for char lists, written out (Arduino `String` ops). -/
def leadsWith : List Char → List Char → Bool
  | [], _ => true
  | _ :: _, [] => false
  | p :: ps, c :: cs => p == c && leadsWith ps cs

/-- `line.indexOf(pat) >= 0` — substring containment. -/
def hasSub : List Char → List Char → Bool
  | [], pat => pat.isEmpty
  | c :: rest, pat => leadsWith pat (c :: rest) || hasSub rest pat

/-- `line.endsWith(<one-char string>)`. -/
def endsWith1 (c0 : Char) : List Char → Bool
  | [] => false
  | [c] => c == c0
  | _ :: c :: rest => endsWith1 c0 (c :: rest)

/-- The `'>'` ready-for-data prompt character. -/
def gtChar : Char := '>'

def gotIpTok : List Char := ("WIFI GOT IP").toList

def errTok : List Char := ("ERROR").toList

def dnsTok : List Char := ("DNS FAIL").toList

def connectTok : List Char := ("CONNECT").toList

def alreadyConnectTok : List Char := ("ALREADY CONNECT").toList

def sendOkTok : List Char := ("SEND OK").toList

def sendFailTok : List Char := ("SEND FAIL").toList

def closedTok : List Char := ("CLOSED").toList

/-- `THINGSPEAK_API_KEY` as configured in the source. -/
def THINGSPEAK_API_KEY : List Char := ("YOUR_THINGSPEAK_API_KEY").toList

def crlf : List Char := ("\r\n").toList

/-- The `snprintf` GET-request payload of `sendReadingToThingSpeak`
(`field1` carries the duration; the timestamp is not transmitted). -/
def formatPayload (duration : Nat) : List Char :=
  ("GET /update?api_key=").toList ++ THINGSPEAK_API_KEY ++
  ("&field1=").toList ++ (toString duration).toList ++
  (" HTTP/1.1\r\nHost: api.thingspeak.com\r\nConnection: close\r\n\r\n").toList

def cipstartCmd : List Char :=
  ("AT+CIPSTART=\"TCP\",\"api.thingspeak.com\",80\r\n").toList

/-- `AT+CIPSEND=<n>` with the payload byte length. -/
def cipsendCmd (n : Nat) : List Char :=
  ("AT+CIPSEND=").toList ++ (toString n).toList ++ crlf

/-- Driver state: the ESP01Driver members that the modelled operations read
or write, the `Status` fields the driver owns, the queue it mutates, the
log of bytes written to the modem serial (`tx`), and an instrumentation
counter of `popOldest` invocations (`popCalls`). -/
structure Driver where
  espState : ESPState
  pendingPayload : List Char
  pendingSendState : Nat
  delayingForResponse : Bool
  storage : Storage
  lastSendOk : Bool
  lastSendSuccessTime : Nat
  storedReadingsCount : Nat
  tx : List (List Char)
  popCalls : Nat

/-- `ESP01Driver::isReadyForSend` -/
def isReadyForSend (d : Driver) : Bool := decide (d.espState = ESPState.READY)

/-- `ESP01Driver::sendReadingToThingSpeak` — refuse unless READY; otherwise
issue CIPSTART, record the payload and sub-state 1, go to SENDING. -/
def sendReadingToThingSpeak (d : Driver) (r : Reading) : Bool × Driver :=
  if isReadyForSend d then
    (true,
      { d with
        tx := d.tx ++ [cipstartCmd],
        delayingForResponse := true,
        pendingPayload := formatPayload r.duration_ms,
        pendingSendState := 1,
        espState := ESPState.SENDING })
  else (false, d)

/-- The first four substring checks of `handleResponse` assign only
`espState` and fall through (no `return`); applied in source order:
`OK`-while-BOOTING (no-op), `WIFI GOT IP`, `WIFI CONNECTED` (no-op),
`ERROR`, `DNS FAIL`. -/
def earlyEspState (line : List Char) (es : ESPState) : ESPState :=
  let es1 := if hasSub line gotIpTok then ESPState.READY else es
  let es2 := if hasSub line errTok then ESPState.ERROR else es1
  if hasSub line dnsTok then ESPState.ERROR else es2

/-- `ESP01Driver::handleResponse` — one trimmed line from the modem;
`now` is the value `millis()` would return at this call. -/
def handleResponse (d : Driver) (line : List Char) (now : Nat) : Driver :=
  let d1 := { d with espState := earlyEspState line d.espState }
  if (hasSub line connectTok || hasSub line alreadyConnectTok) &&
      d1.pendingSendState == 1 then
    { d1 with
      tx := d1.tx ++ [cipsendCmd d1.pendingPayload.length],
      pendingSendState := 2 }
  else if endsWith1 gtChar line && d1.pendingSendState == 2 then
    { d1 with tx := d1.tx ++ [d1.pendingPayload], pendingSendState := 3 }
  else if hasSub line sendOkTok || hasSub line sendFailTok then
    let d2 :=
      if hasSub line sendOkTok then
        if hasPending d1.storage then
          let st := (popOldest d1.storage).2
          { d1 with
            storage := st,
            popCalls := d1.popCalls + 1,
            storedReadingsCount := size st,
            lastSendOk := true,
            lastSendSuccessTime := now }
        else d1
      else { d1 with lastSendOk := false }
    { d2 with
      pendingPayload := [],
      pendingSendState := 0,
      espState := ESPState.READY }
  else if hasSub line closedTok then
    { d1 with
      pendingPayload := [],
      pendingSendState := 0,
      espState := ESPState.READY }
  else d1

end ESP01Driver

section ConcreteStates

open EEPROMStorage ESP01Driver

/-- An all-zero EEPROM (the factory-clean medium). -/
def ezero : Eeprom := { mem := fun _ => 0, writes := 0 }

/-- EEPROM whose persisted header has count byte 0 and head byte 42. -/
def eHeadCorrupt : Eeprom :=
  { mem := fun a => if a = 1 then 42 else 0, writes := 0 }

/-- EEPROM whose persisted header has count byte 3 and head byte 42. -/
def eHeadBig : Eeprom :=
  { mem := fun a => if a = 0 then 3 else if a = 1 then 42 else 0, writes := 0 }

/-- EEPROM whose persisted count byte is 11 = capacity + 1. -/
def eCountCorrupt : Eeprom :=
  { mem := fun a => if a = 0 then 11 else 0, writes := 0 }

/-- A demo event: 500 ms of motion ending at timestamp 1000. -/
def rDemo : Reading := { duration_ms := 500, ts := 1000 }

/-- An event none of whose 8 stored bytes is zero (duration = ts = 0x01010101). -/
def rBytes : Reading := { duration_ms := 16843009, ts := 16843009 }

/-- A large 32-bit event (duration 0xDEADBEEF, timestamp 0xAABBCCDD). -/
def rBig : Reading := { duration_ms := 3735928559, ts := 2864434397 }

/-- The queue state loaded from the all-zero EEPROM: empty, head 0. -/
def sZero : Storage := EEPROMStorage.begin ezero

/-- The empty queue after one enqueue of `rDemo`: one entry. -/
def sOne : Storage := (push sZero rDemo).2

/-- A full queue (count = capacity) over the all-zero EEPROM. -/
def sFull : Storage := { count := 10, head := 0, eeprom := ezero }

/-- A READY driver with nothing pending and the empty queue. -/
def dBase : Driver :=
  { espState := ESPState.READY, pendingPayload := [], pendingSendState := 0,
    delayingForResponse := false, storage := sZero, lastSendOk := false,
    lastSendSuccessTime := 0, storedReadingsCount := 0, tx := [], popCalls := 0 }

/-- Driver mid-send, awaiting the transmit result, one entry queued. -/
def dSendOk : Driver :=
  { dBase with
    espState := ESPState.SENDING
    pendingPayload := formatPayload 500
    pendingSendState := 3
    delayingForResponse := true
    storage := sOne
    storedReadingsCount := 1 }

/-- Driver mid-send awaiting the transmit result, but with an empty queue. -/
def dSendOkEmpty : Driver :=
  { dBase with
    espState := ESPState.SENDING
    pendingPayload := formatPayload 500
    pendingSendState := 3
    delayingForResponse := true }

/-- Driver in READY while a send is still pending (sub-state 1) — reachable
when a `WIFI GOT IP` line arrives during a send. -/
def dReadyPending : Driver :=
  { dBase with
    pendingPayload := formatPayload 500
    pendingSendState := 1
    delayingForResponse := true }

/-- Driver still booting, nothing pending. -/
def dBooting : Driver := { dBase with espState := ESPState.BOOTING }

/-- A line containing both the got-IP and the error indicator. -/
def gotIpErrLine : List Char := ("WIFI GOT IP ERROR").toList

/-- A line containing both the connect confirmation and `SEND OK`. -/
def connectSendOkLine : List Char := ("CONNECT SEND OK").toList

end ConcreteStates

namespace EEPROMStorage

/-- Reading a cell after a change-detecting write: the written byte at the
written address, the old byte elsewhere. -/
theorem eread_eupdate (e : Eeprom) (a v x : Nat) :
    eread (eupdate e a v) x = if x = a then v % 256 else eread e x := by
  unfold eupdate
  by_cases h : eread e a = v % 256
  · rw [if_pos h]
    by_cases hx : x = a
    · rw [if_pos hx, hx]; exact h
    · rw [if_neg hx]
  · rw [if_neg h]
    simp only [eread]
    by_cases hx : x = a
    · subst hx; simp
    · simp [hx]

/-- A change-detecting write performs at most one physical byte-write. -/
theorem eupdate_writes_le (e : Eeprom) (a v : Nat) :
    (eupdate e a v).writes ≤ e.writes + 1 := by
  unfold eupdate
  split <;> simp

theorem writes_le_step (x : Eeprom) (a v : Nat) {m : Nat} (h : x.writes ≤ m) :
    (eupdate x a v).writes ≤ m + 1 :=
  le_trans (eupdate_writes_le x a v) (by omega)

/-- Serializing one entry performs at most 8 physical byte-writes. -/
theorem writeReading_writes_le (e : Eeprom) (i : Nat) (r : Reading) :
    (writeReadingToEEPROM e i r).writes ≤ e.writes + 8 := by
  unfold writeReadingToEEPROM
  apply writes_le_step
  apply writes_le_step
  apply writes_le_step
  apply writes_le_step
  apply writes_le_step
  apply writes_le_step
  apply writes_le_step
  apply writes_le_step
  exact le_refl _

theorem eread_writeReading_b0 (e : Eeprom) (i : Nat) (r : Reading) :
    eread (writeReadingToEEPROM e i r) (ADDR_READINGS + i * READING_BYTES + 0) =
      (r.duration_ms >>> 0) % 256 := by
  unfold writeReadingToEEPROM
  simp only [eread_eupdate, ADDR_READINGS, READING_BYTES]
  split_ifs <;> omega

theorem eread_writeReading_b1 (e : Eeprom) (i : Nat) (r : Reading) :
    eread (writeReadingToEEPROM e i r) (ADDR_READINGS + i * READING_BYTES + 1) =
      (r.duration_ms >>> 8) % 256 := by
  unfold writeReadingToEEPROM
  simp only [eread_eupdate, ADDR_READINGS, READING_BYTES]
  split_ifs <;> omega

theorem eread_writeReading_b2 (e : Eeprom) (i : Nat) (r : Reading) :
    eread (writeReadingToEEPROM e i r) (ADDR_READINGS + i * READING_BYTES + 2) =
      (r.duration_ms >>> 16) % 256 := by
  unfold writeReadingToEEPROM
  simp only [eread_eupdate, ADDR_READINGS, READING_BYTES]
  split_ifs <;> omega

theorem eread_writeReading_b3 (e : Eeprom) (i : Nat) (r : Reading) :
    eread (writeReadingToEEPROM e i r) (ADDR_READINGS + i * READING_BYTES + 3) =
      (r.duration_ms >>> 24) % 256 := by
  unfold writeReadingToEEPROM
  simp only [eread_eupdate, ADDR_READINGS, READING_BYTES]
  split_ifs <;> omega

theorem eread_writeReading_b4 (e : Eeprom) (i : Nat) (r : Reading) :
    eread (writeReadingToEEPROM e i r) (ADDR_READINGS + i * READING_BYTES + 4) =
      (r.ts >>> 0) % 256 := by
  unfold writeReadingToEEPROM
  simp only [eread_eupdate, ADDR_READINGS, READING_BYTES]
  split_ifs <;> omega

theorem eread_writeReading_b5 (e : Eeprom) (i : Nat) (r : Reading) :
    eread (writeReadingToEEPROM e i r) (ADDR_READINGS + i * READING_BYTES + 5) =
      (r.ts >>> 8) % 256 := by
  unfold writeReadingToEEPROM
  simp only [eread_eupdate, ADDR_READINGS, READING_BYTES]
  split_ifs <;> omega

theorem eread_writeReading_b6 (e : Eeprom) (i : Nat) (r : Reading) :
    eread (writeReadingToEEPROM e i r) (ADDR_READINGS + i * READING_BYTES + 6) =
      (r.ts >>> 16) % 256 := by
  unfold writeReadingToEEPROM
  simp only [eread_eupdate, ADDR_READINGS, READING_BYTES]
  split_ifs <;> omega

theorem eread_writeReading_b7 (e : Eeprom) (i : Nat) (r : Reading) :
    eread (writeReadingToEEPROM e i r) (ADDR_READINGS + i * READING_BYTES + 7) =
      (r.ts >>> 24) % 256 := by
  unfold writeReadingToEEPROM
  simp only [eread_eupdate, ADDR_READINGS, READING_BYTES]
  split_ifs <;> omega

/-- Reading through the header write: entry addresses are never address 0. -/
theorem eread_eupdate_hdr (e : Eeprom) (c i k : Nat) :
    eread (eupdate e 0 c) (ADDR_READINGS + i * READING_BYTES + k) =
      eread e (ADDR_READINGS + i * READING_BYTES + k) := by
  rw [eread_eupdate,
    if_neg (by simp only [ADDR_READINGS, READING_BYTES]; omega)]

/-- Little-endian 32-bit round trip: splitting a value below `2^32` into four
bytes and reassembling them (as `readReadingFromEEPROM` does) restores it. -/
theorem le32_roundtrip (v : Nat) (hv : v < 2 ^ 32) :
    (v >>> 0) % 256 ||| ((v >>> 8) % 256) <<< 8 ||| ((v >>> 16) % 256) <<< 16 |||
      ((v >>> 24) % 256) <<< 24 = v := by
  apply Nat.eq_of_testBit_eq
  intro j
  have h256 : (256 : Nat) = 2 ^ 8 := rfl
  simp only [h256, Nat.testBit_or, Nat.testBit_shiftLeft, Nat.testBit_mod_two_pow,
    Nat.testBit_shiftRight]
  rcases Nat.lt_or_ge j 32 with hj | hj
  · interval_cases j <;> simp
  · have hv' : v < 2 ^ j := lt_of_lt_of_le hv (Nat.pow_le_pow_right (by norm_num) hj)
    have hbit : v.testBit j = false := Nat.testBit_lt_two_pow hv'
    have a1 : ¬ (j < 8) := by omega
    have a2 : ¬ (j - 8 < 8) := by omega
    have a3 : ¬ (j - 16 < 8) := by omega
    have a4 : ¬ (j - 24 < 8) := by omega
    simp [a1, a2, a3, a4, hbit]

/-- Deserializing a slot right after serializing an entry into it (and then
updating the count header byte) restores the entry byte-identically. -/
theorem readReading_after_write (e : Eeprom) (i : Nat) (r : Reading) (c : Nat)
    (hd : r.duration_ms < 2 ^ 32) (ht : r.ts < 2 ^ 32) :
    readReadingFromEEPROM (eupdate (writeReadingToEEPROM e i r) 0 c) i = r := by
  obtain ⟨dms, tsv⟩ := r
  simp only [readReadingFromEEPROM, eread_eupdate_hdr, eread_writeReading_b0,
    eread_writeReading_b1, eread_writeReading_b2, eread_writeReading_b3,
    eread_writeReading_b4, eread_writeReading_b5, eread_writeReading_b6,
    eread_writeReading_b7]
  rw [le32_roundtrip dms hd, le32_roundtrip tsv ht]

/-- An enqueue performs at most 9 physical byte-writes: up to 8 entry bytes
plus the count header byte. -/
theorem push_writes_le (s : Storage) (r : Reading) :
    ((push s r).2).eeprom.writes ≤ s.eeprom.writes + 9 := by
  by_cases hf : isFull s = true
  · simp [push, hf]
  · have hf' : isFull s = false := by simpa using hf
    simp only [push, hf', Bool.false_eq_true, if_false]
    exact writes_le_step _ _ _ (writeReading_writes_le _ _ _)

/-- A dequeue performs at most 2 physical byte-writes (the header bytes). -/
theorem pop_writes_le (s : Storage) :
    ((popOldest s).2).eeprom.writes ≤ s.eeprom.writes + 2 := by
  by_cases he : isEmpty s = true
  · simp [popOldest, he]
  · have he' : isEmpty s = false := by simpa using he
    simp only [popOldest, he', Bool.false_eq_true, if_false]
    exact writes_le_step _ _ _ (writes_le_step _ _ _ (le_refl _))

/-- One operation preserves `count ≤ capacity`, whatever `head` holds. -/
theorem applyOp_count_le (s : Storage) (o : Op)
    (h1 : s.count ≤ MAX_ENTRIES) :
    (applyOp s o).count ≤ MAX_ENTRIES := by
  cases o with
  | push r =>
    by_cases hf : isFull s = true
    · simpa [applyOp, push, hf] using h1
    · have hf' : isFull s = false := by simpa using hf
      have hc : ¬ (MAX_ENTRIES ≤ s.count) := by
        simpa [isFull] using hf'
      simp only [applyOp, push, hf', Bool.false_eq_true, if_false]
      simp only [MAX_ENTRIES] at hc ⊢
      omega
  | pop =>
    by_cases he : isEmpty s = true
    · simpa [applyOp, popOldest, he] using h1
    · have he' : isEmpty s = false := by simpa using he
      simp only [applyOp, popOldest, he', Bool.false_eq_true, if_false]
      simp only [MAX_ENTRIES] at h1 ⊢
      split_ifs <;> omega

/-- One operation preserves `head < capacity`, whatever `count` holds. -/
theorem applyOp_head_lt (s : Storage) (o : Op)
    (h2 : s.head < MAX_ENTRIES) :
    (applyOp s o).head < MAX_ENTRIES := by
  cases o with
  | push r =>
    by_cases hf : isFull s = true
    · simpa [applyOp, push, hf] using h2
    · have hf' : isFull s = false := by simpa using hf
      simpa only [applyOp, push, hf', Bool.false_eq_true, if_false] using h2
  | pop =>
    by_cases he : isEmpty s = true
    · simpa [applyOp, popOldest, he] using h2
    · have he' : isEmpty s = false := by simpa using he
      simp only [applyOp, popOldest, he', Bool.false_eq_true, if_false]
      simp only [MAX_ENTRIES]
      omega

/-- Any sequence of operations preserves the count bound. -/
theorem applyOps_count_le (ops : List Op) (s : Storage)
    (h1 : s.count ≤ MAX_ENTRIES) :
    (applyOps s ops).count ≤ MAX_ENTRIES := by
  induction ops generalizing s with
  | nil => exact h1
  | cons o rest ih =>
    simpa [applyOps] using ih (applyOp s o) (applyOp_count_le s o h1)

/-- Any sequence of operations preserves the head bound. -/
theorem applyOps_head_lt (ops : List Op) (s : Storage)
    (h2 : s.head < MAX_ENTRIES) :
    (applyOps s ops).head < MAX_ENTRIES := by
  induction ops generalizing s with
  | nil => exact h2
  | cons o rest ih =>
    simpa [applyOps] using ih (applyOp s o) (applyOp_head_lt s o h2)

end EEPROMStorage

open EEPROMStorage ESP01Driver

/-- C1 counterexample: with a persisted head byte of 42 (and count byte 0),
`begin()` yields `head = 42`, outside `[0, capacity)`, already for the empty
operation sequence. -/
theorem C1_head_out_of_range_after_begin :
    (applyOps (EEPROMStorage.begin eHeadCorrupt) []).head = 42 ∧
    ¬ ((applyOps (EEPROMStorage.begin eHeadCorrupt) []).head < MAX_ENTRIES) := by
  decide

/-- C1 (amended): for every operation sequence after `begin()`, `count`
stays in `0..capacity` unconditionally; `head` stays in `[0, capacity)`
provided the persisted head byte loaded by `begin()` is itself below
capacity (`begin()` does not sanitize the head byte). -/
theorem C1_bounds_invariant (e : Eeprom) (ops : List Op) :
    (applyOps (EEPROMStorage.begin e) ops).count ≤ MAX_ENTRIES ∧
    (eread e 1 < MAX_ENTRIES →
      (applyOps (EEPROMStorage.begin e) ops).head < MAX_ENTRIES) := by
  constructor
  · apply applyOps_count_le
    by_cases hb : eread e 0 > MAX_ENTRIES
    · simp [EEPROMStorage.begin, if_pos hb]
    · simp only [EEPROMStorage.begin, if_neg hb]
      omega
  · intro hh
    apply applyOps_head_lt
    by_cases hb : eread e 0 > MAX_ENTRIES
    · have h0 : (0 : Nat) < MAX_ENTRIES := by decide
      simp [EEPROMStorage.begin, if_pos hb, h0]
    · simpa only [EEPROMStorage.begin, if_neg hb] using hh

/-- C1 witness: concrete run of the amended invariant, discharging the head
clause's proviso at the clean EEPROM. -/
theorem C1_bounds_invariant_witness :
    (applyOps (EEPROMStorage.begin ezero) [Op.push rDemo, Op.pop]).count ≤ MAX_ENTRIES ∧
    eread ezero 1 < MAX_ENTRIES ∧
    (applyOps (EEPROMStorage.begin ezero) [Op.push rDemo, Op.pop]).head < MAX_ENTRIES :=
  ⟨(C1_bounds_invariant ezero [Op.push rDemo, Op.pop]).1, by decide,
    (C1_bounds_invariant ezero [Op.push rDemo, Op.pop]).2 (by decide)⟩

/-- C2: pushing any 32-bit event onto an empty queue (head in range, per the
data model) and peeking with no intervening dequeue returns byte-identical
duration and timestamp. -/
theorem C2_roundtrip (s : Storage) (r : Reading)
    (hempty : s.count = 0) (hhead : s.head < MAX_ENTRIES)
    (hd : r.duration_ms < 2 ^ 32) (ht : r.ts < 2 ^ 32) :
    peekOldest (push s r).2 = some r := by
  have hnf : isFull s = false := by
    simp [isFull, MAX_ENTRIES, hempty]
  have hh10 : s.head < 10 := by
    simpa [MAX_ENTRIES] using hhead
  have htail0 : (s.head + 0) % MAX_ENTRIES = s.head := by
    simp only [MAX_ENTRIES]
    omega
  have hne : ∀ ee : Eeprom,
      isEmpty { count := (0 + 1) % 256, head := s.head, eeprom := ee } = false :=
    fun ee => by simp [isEmpty]
  simp only [push, hnf, Bool.false_eq_true, if_false, hempty, htail0]
  simp only [peekOldest, hne, Bool.false_eq_true, if_false]
  rw [readReading_after_write _ _ _ _ hd ht]

/-- C2 witness: round trip of a concrete large event from the clean state. -/
theorem C2_roundtrip_witness :
    (sZero.count = 0 ∧ sZero.head < MAX_ENTRIES ∧
      rBig.duration_ms < 2 ^ 32 ∧ rBig.ts < 2 ^ 32) ∧
    peekOldest (push sZero rBig).2 = some rBig :=
  ⟨⟨by decide, by decide, by decide, by decide⟩,
    C2_roundtrip sZero rBig (by decide) (by decide) (by decide) (by decide)⟩

/-- C3 counterexample: a `SEND OK` line handled in send sub-state 3 with an
empty queue records neither success nor a success timestamp (both sit inside
the same non-empty guard as the dequeue), contradicting the claim's
unconditional "records success and a success timestamp". -/
theorem C3_no_success_record_when_empty :
    dSendOkEmpty.pendingSendState = 3 ∧
    hasSub sendOkTok sendOkTok = true ∧
    dSendOkEmpty.storage.count = 0 ∧
    ¬ ((handleResponse dSendOkEmpty sendOkTok 5).lastSendOk = true ∧
       (handleResponse dSendOkEmpty sendOkTok 5).lastSendSuccessTime = 5) := by
  decide

/-- C3 (amended): on a `SEND OK` line in send sub-state 3, if the queue is
non-empty the driver invokes `popOldest` exactly once and records success
and the success timestamp; if the queue is empty it does neither; in both
cases it clears the pending payload and sub-state and returns to READY. -/
theorem C3_send_ok_completion (d : Driver) (line : List Char) (now : Nat)
    (h3 : d.pendingSendState = 3) (hok : hasSub line sendOkTok = true) :
    (d.storage.count ≠ 0 →
      (handleResponse d line now).storage = (popOldest d.storage).2 ∧
      (handleResponse d line now).popCalls = d.popCalls + 1 ∧
      (handleResponse d line now).lastSendOk = true ∧
      (handleResponse d line now).lastSendSuccessTime = now ∧
      (handleResponse d line now).storedReadingsCount = size (popOldest d.storage).2) ∧
    (d.storage.count = 0 →
      (handleResponse d line now).storage = d.storage ∧
      (handleResponse d line now).popCalls = d.popCalls ∧
      (handleResponse d line now).lastSendOk = d.lastSendOk) ∧
    (handleResponse d line now).pendingPayload = [] ∧
    (handleResponse d line now).pendingSendState = 0 ∧
    (handleResponse d line now).espState = ESPState.READY := by
  refine ⟨?_, ?_, ?_⟩
  · intro hne
    have hp : hasPending d.storage = true := by
      simp [hasPending, isEmpty, hne]
    simp [handleResponse, h3, hok, hp, size]
  · intro heq
    have hp : hasPending d.storage = false := by
      simp [hasPending, isEmpty, heq]
    simp [handleResponse, h3, hok, hp]
  · simp [handleResponse, h3, hok]

/-- C3 witness: concrete completion with one queued entry. -/
theorem C3_send_ok_completion_witness :
    dSendOk.pendingSendState = 3 ∧
    hasSub sendOkTok sendOkTok = true ∧
    dSendOk.storage.count ≠ 0 ∧
    (handleResponse dSendOk sendOkTok 5).popCalls = dSendOk.popCalls + 1 ∧
    (handleResponse dSendOk sendOkTok 5).espState = ESPState.READY := by
  refine ⟨by decide, by decide, by decide, ?_, ?_⟩
  · exact ((C3_send_ok_completion dSendOk sendOkTok 5 (by decide) (by decide)).1
      (by decide)).2.1
  · exact (C3_send_ok_completion dSendOk sendOkTok 5 (by decide) (by decide)).2.2.2.2

/-- C4: a `SEND FAIL` line (not containing `SEND OK`) handled in send
sub-state 3 records failure, clears the pending payload and sub-state,
returns to READY, never invokes `popOldest`, and leaves the head event
retrievable via `peekOldest`. -/
theorem C4_send_fail_retains_event (d : Driver) (line : List Char) (now : Nat)
    (h3 : d.pendingSendState = 3) (hf : hasSub line sendFailTok = true)
    (hok : hasSub line sendOkTok = false) :
    (handleResponse d line now).lastSendOk = false ∧
    (handleResponse d line now).storage = d.storage ∧
    (handleResponse d line now).popCalls = d.popCalls ∧
    (handleResponse d line now).pendingPayload = [] ∧
    (handleResponse d line now).pendingSendState = 0 ∧
    (handleResponse d line now).espState = ESPState.READY ∧
    peekOldest (handleResponse d line now).storage = peekOldest d.storage := by
  simp [handleResponse, h3, hf, hok]

/-- C4 witness: concrete failure completion with one queued entry. -/
theorem C4_send_fail_retains_event_witness :
    dSendOk.pendingSendState = 3 ∧
    hasSub sendFailTok sendFailTok = true ∧
    hasSub sendFailTok sendOkTok = false ∧
    (handleResponse dSendOk sendFailTok 5).popCalls = dSendOk.popCalls ∧
    peekOldest (handleResponse dSendOk sendFailTok 5).storage = peekOldest dSendOk.storage := by
  refine ⟨by decide, by decide, by decide, ?_, ?_⟩
  · exact (C4_send_fail_retains_event dSendOk sendFailTok 5 (by decide) (by decide)
      (by decide)).2.2.1
  · exact (C4_send_fail_retains_event dSendOk sendFailTok 5 (by decide) (by decide)
      (by decide)).2.2.2.2.2.2

/-- C5 counterexample: from the clean state, enqueuing an event whose 8
stored bytes are all non-zero costs 9 byte-writes (8 entry bytes + the count
header byte) and the subsequent dequeue costs 2 more — 11 in total,
exceeding the claimed bound of 10. -/
theorem C5_eleven_writes :
    sZero.eeprom.writes = 0 ∧
    ((popOldest (push sZero rBytes).2).2).eeprom.writes = 11 ∧
    ¬ (((popOldest (push sZero rBytes).2).2).eeprom.writes ≤ 10) := by
  decide

/-- C5 (amended): one event lifecycle performs at most 11 physical
byte-writes: at most 9 during the enqueue (8 entry bytes plus the count
header byte) and at most 2 during the dequeue, each write happening only
when the new byte differs from the stored byte. -/
theorem C5_write_amplification_bound (s : Storage) (r : Reading) :
    ((push s r).2).eeprom.writes ≤ s.eeprom.writes + 9 ∧
    ((popOldest s).2).eeprom.writes ≤ s.eeprom.writes + 2 ∧
    ((popOldest (push s r).2).2).eeprom.writes ≤ s.eeprom.writes + 11 := by
  refine ⟨push_writes_le s r, pop_writes_le s, ?_⟩
  have h1 := push_writes_le s r
  have h2 := pop_writes_le (push s r).2
  omega

/-- C6 counterexample: in READY with a send still pending (sub-state 1,
non-empty pending payload — reachable when `WIFI GOT IP` arrives mid-send),
a new send request is accepted, where the claim requires it to fail. -/
theorem C6_send_accepted_while_pending :
    dReadyPending.espState = ESPState.READY ∧
    dReadyPending.pendingSendState = 1 ∧
    dReadyPending.pendingPayload ≠ [] ∧
    (sendReadingToThingSpeak dReadyPending rDemo).1 = true := by
  decide

/-- C6 (amended): a send request succeeds exactly when the modem state is
READY — whether a send is already pending is not checked; on success it
issues CIPSTART, records the payload and sub-state 1, and moves to SENDING;
otherwise it returns false and changes nothing. -/
theorem C6_send_gate_is_ready_only (d : Driver) (r : Reading) :
    ((sendReadingToThingSpeak d r).1 = true ↔ d.espState = ESPState.READY) ∧
    (d.espState ≠ ESPState.READY → (sendReadingToThingSpeak d r).2 = d) ∧
    (d.espState = ESPState.READY →
      (sendReadingToThingSpeak d r).2.espState = ESPState.SENDING ∧
      (sendReadingToThingSpeak d r).2.pendingSendState = 1 ∧
      (sendReadingToThingSpeak d r).2.pendingPayload = formatPayload r.duration_ms ∧
      (sendReadingToThingSpeak d r).2.tx = d.tx ++ [cipstartCmd] ∧
      (sendReadingToThingSpeak d r).2.storage = d.storage) := by
  by_cases h : d.espState = ESPState.READY
  · simp [sendReadingToThingSpeak, isReadyForSend, h]
  · simp [sendReadingToThingSpeak, isReadyForSend, h]

/-- C6 witness: the amended characterization at the pending-READY state. -/
theorem C6_send_gate_witness :
    dReadyPending.espState = ESPState.READY ∧
    (sendReadingToThingSpeak dReadyPending rDemo).2.pendingSendState = 1 ∧
    (sendReadingToThingSpeak dReadyPending rDemo).2.espState = ESPState.SENDING :=
  ⟨by decide,
    ((C6_send_gate_is_ready_only dReadyPending rDemo).2.2 (by decide)).2.1,
    ((C6_send_gate_is_ready_only dReadyPending rDemo).2.2 (by decide)).1⟩

/-- C7 counterexample: on the line `WIFI GOT IP ERROR` the first applicable
check (got-IP, whose action sets READY) fires, yet the later error match
also fires and wins: the driver ends in ERROR, so a later match did cause a
state change. -/
theorem C7_two_actions_fire :
    hasSub gotIpErrLine gotIpTok = true ∧
    hasSub gotIpErrLine errTok = true ∧
    (handleResponse dBooting gotIpErrLine 0).espState = ESPState.ERROR ∧
    ESPState.ERROR ≠ ESPState.READY := by
  decide

/-- C7 (amended): only the send-phase branches stop classification — when
the connect-confirmation branch applies (sub-state 1, line contains
`CONNECT`), its early return suppresses every later check (prompt,
transmit-result, remote-close), so the queue, payload and status are
untouched; the early indicator checks are not suppressed: the resulting
modem state is `earlyEspState`, i.e. the LAST matching early indicator
wins, not the first. -/
theorem C7_return_branches_suppress (d : Driver) (line : List Char) (now : Nat)
    (h1 : d.pendingSendState = 1) (hc : hasSub line connectTok = true) :
    handleResponse d line now =
      { d with
        espState := earlyEspState line d.espState
        tx := d.tx ++ [cipsendCmd d.pendingPayload.length]
        pendingSendState := 2 } := by
  simp [handleResponse, h1, hc]

/-- C7 witness: a line carrying both `CONNECT` and `SEND OK` in sub-state 1
advances to sub-state 2 and never reaches the transmit-result action. -/
theorem C7_return_branches_suppress_witness :
    dReadyPending.pendingSendState = 1 ∧
    hasSub connectSendOkLine connectTok = true ∧
    handleResponse dReadyPending connectSendOkLine 0 =
      { dReadyPending with
        espState := earlyEspState connectSendOkLine dReadyPending.espState
        tx := dReadyPending.tx ++ [cipsendCmd dReadyPending.pendingPayload.length]
        pendingSendState := 2 } :=
  ⟨by decide, by decide,
    C7_return_branches_suppress dReadyPending connectSendOkLine 0 (by decide) (by decide)⟩

/-- C8: when the persisted count byte exceeds capacity, `begin()` resets
both header fields to 0 — the queue initializes empty, silently. -/
theorem C8_corrupt_count_self_heal (e : Eeprom) (h : eread e 0 > MAX_ENTRIES) :
    (EEPROMStorage.begin e).count = 0 ∧ (EEPROMStorage.begin e).head = 0 := by
  simp [EEPROMStorage.begin, if_pos h]

/-- C8 witness: count byte 11 = capacity + 1 self-heals to the empty queue. -/
theorem C8_corrupt_count_self_heal_witness :
    eread eCountCorrupt 0 > MAX_ENTRIES ∧
    (EEPROMStorage.begin eCountCorrupt).count = 0 ∧
    (EEPROMStorage.begin eCountCorrupt).head = 0 :=
  ⟨by decide, (C8_corrupt_count_self_heal eCountCorrupt (by decide)).1,
    (C8_corrupt_count_self_heal eCountCorrupt (by decide)).2⟩

/-- C9: `push` on a full queue and `popOldest` on an empty queue both return
false and leave the entire state — count, head, and all EEPROM bytes —
unchanged. -/
theorem C9_full_empty_noop (s : Storage) (r : Reading) :
    (isFull s = true → push s r = (false, s)) ∧
    (isEmpty s = true → popOldest s = (false, s)) := by
  constructor
  · intro h
    simp [push, h]
  · intro h
    simp [popOldest, h]

/-- C9 witness: rejection on a concrete full queue and a concrete empty one. -/
theorem C9_full_empty_noop_witness :
    isFull sFull = true ∧ isEmpty sZero = true ∧
    push sFull rDemo = (false, sFull) ∧ popOldest sZero = (false, sZero) :=
  ⟨by decide, by decide,
    (C9_full_empty_noop sFull rDemo).1 (by decide),
    (C9_full_empty_noop sZero rDemo).2 (by decide)⟩

/-- C10: `begin()` range-checks only the count byte: whenever that byte is
at most capacity, `head` is the stored head byte unchecked, and a subsequent
`peekOldest` on a non-empty queue deserializes the slot at that unreduced
index. -/
theorem C10_head_byte_unchecked (e : Eeprom) (h : eread e 0 ≤ MAX_ENTRIES) :
    (EEPROMStorage.begin e).head = eread e 1 ∧
    (0 < eread e 0 →
      peekOldest (EEPROMStorage.begin e) =
        some (readReadingFromEEPROM e (eread e 1))) := by
  have h' : ¬ (eread e 0 > MAX_ENTRIES) := by omega
  constructor
  · simp [EEPROMStorage.begin, if_neg h']
  · intro hpos
    have hr : EEPROMStorage.begin e =
        { count := eread e 0, head := eread e 1, eeprom := e } := by
      simp [EEPROMStorage.begin, if_neg h']
    have hne : isEmpty { count := eread e 0, head := eread e 1, eeprom := e } = false := by
      simp [isEmpty]
      omega
    rw [hr]
    simp [peekOldest, hne]

/-- C10 witness: count byte 3, head byte 42 ≥ capacity — `begin()` keeps
head 42 and `peekOldest` reads the slot at index 42. -/
theorem C10_head_byte_unchecked_witness :
    eread eHeadBig 0 ≤ MAX_ENTRIES ∧ 0 < eread eHeadBig 0 ∧
    MAX_ENTRIES ≤ (EEPROMStorage.begin eHeadBig).head ∧
    peekOldest (EEPROMStorage.begin eHeadBig) =
      some (readReadingFromEEPROM eHeadBig 42) := by
  refine ⟨by decide, by decide, by decide, ?_⟩
  have h2 := (C10_head_byte_unchecked eHeadBig (by decide)).2 (by decide)
  rw [show eread eHeadBig 1 = 42 from by decide] at h2
  exact h2
